import Mathlib

/-!
Shallow embedding of the allocation-recommendation and report-assembly logic of
the stock-portfolio dashboard, i.e. the `NaturalLanguageSummaryAgent` and
`ReportGenerationAgent` classes.

Modelling conventions:
* JavaScript numbers are modelled as rationals (`ℚ`); the arithmetic here is
  exact on the dyadic/decimal literals the code uses.
* `undefined` / optional object fields are modelled with `Option`.
* The JavaScript `x || d` default idiom (which treats `0`, `""` and
  `undefined` as falsy) is modelled by `jsOrNum` / `jsOrString` / `jsTruthy`.
* Code paths that would raise a `TypeError` (a property access on
  `undefined`) are modelled in the `Except String` monad.
* `Date.now()` is modelled by an explicit clock argument `now : ℕ`.
* In-place mutation of `macroAnalysis.metrics.recommendedAllocations` by
  `generateActionPlan` is modelled by returning the updated `AgentOutput`.
-/

/-! ### JavaScript helpers -/

/-- JavaScript `x || d` for an optional number: `undefined` and `0` fall back to `d`. -/
def jsOrNum (x : Option ℚ) (d : ℚ) : ℚ :=
  match x with
  | some v => if v = 0 then d else v
  | none => d

/-- JavaScript `x || d` for an optional string: `undefined` and `""` fall back to `d`. -/
def jsOrString (x : Option String) (d : String) : String :=
  match x with
  | some v => if v = "" then d else v
  | none => d

/-- Truthiness of an optional boolean (`undefined` is falsy). -/
def jsTruthy (x : Option Bool) : Bool :=
  x.getD false

/-- Truthiness of an optional number (`undefined` and `0` are falsy). -/
def jsTruthyNum (x : Option ℚ) : Bool :=
  match x with
  | some v => v ≠ 0
  | none => false

/-- Model of `Math.round`: round half toward positive infinity. -/
def jsRound (q : ℚ) : ℤ :=
  ⌊q + 1 / 2⌋

/-- Model of `Number.prototype.toFixed(d)`: fixed-point decimal rendering. -/
def toFixedStr (q : ℚ) (d : ℕ) : String :=
  let n : ℤ := ⌊q * (10 : ℚ) ^ d + 1 / 2⌋
  let sign : String := if n < 0 then "-" else ""
  let a : ℕ := n.natAbs
  if d = 0 then
    sign ++ toString a
  else
    let ip : ℕ := a / 10 ^ d
    let fp : ℕ := a % 10 ^ d
    let fs : String := toString fp
    let fs : String := String.mk (List.replicate (d - fs.length) '0') ++ fs
    sign ++ toString ip ++ "." ++ fs

/-- Model of `String.prototype.includes`. -/
def jsIncludes (s pat : String) : Bool :=
  decide (1 < (s.splitOn pat).length)

/-- Display of a possibly-`undefined` string inside a template literal. -/
def showUndef : Option String → String
  | some s => s
  | none => "undefined"

/-! ### Data model -/

/-- The option-ETF ("income pie") bucket of an allocation plan. -/
structure IncomePie where
  total : ℚ
  FEPI : ℚ
  SDTY : ℚ
  QQQY : ℚ
  deriving DecidableEq, Repr

/-- The short-term treasury bucket of an allocation plan. -/
structure ShortTermTreasury where
  total : ℚ
  SHY : ℚ
  deriving DecidableEq, Repr

/-- The long-duration treasury bucket of an allocation plan. -/
structure TreasuryETF where
  total : ℚ
  EDV : ℚ
  deriving DecidableEq, Repr

/-- An allocation plan: three buckets plus the optional adjustment note. -/
structure Allocations where
  incomePie : IncomePie
  shortTermTreasury : ShortTermTreasury
  treasuryETF : TreasuryETF
  note : Option String
  deriving DecidableEq, Repr

/-- Position-limit configuration; each field may be absent. -/
structure PositionLimits where
  maxSingleOptionETF : Option ℚ
  maxCombinedOptionETFs : Option ℚ
  idealIncomePieAllocation : Option ℚ
  deriving DecidableEq, Repr

/-- The `limitExceeded` flags carried by the actual-allocations object. -/
structure LimitExceeded where
  individualPositions : Option Bool
  combinedOptionETFs : Option Bool
  deriving DecidableEq, Repr

/-- A portfolio holding. -/
structure Holding where
  symbol : String
  allocation : ℚ
  weeklyPerformance : ℚ
  navErosion : ℚ
  deriving DecidableEq, Repr

/-- Actual portfolio allocations, as passed in the agent input. -/
structure ActualAllocations where
  holdings : Option (List Holding)
  limitExceeded : Option LimitExceeded
  deriving DecidableEq, Repr

/-- A rotation signal of the portfolio state. -/
structure RotationSignal where
  type : String
  symbol : String
  fromSymbol : Option String
  urgency : String
  reason : String
  deriving DecidableEq, Repr

/-- Market-condition fields read by the agents. -/
structure MarketCondition where
  vix : ℚ
  vixTrend : String
  riskLevel : String
  tenYearYield : ℚ
  twoYearYield : ℚ
  deriving DecidableEq, Repr

/-- Portfolio metric fields read by the agents. -/
structure PortfolioMetrics where
  sharpeRatio : ℚ
  totalYield : ℚ
  deriving DecidableEq, Repr

/-- The portfolio state; `rotationSignals` and `holdings` may be absent. -/
structure PortfolioState where
  marketCondition : MarketCondition
  metrics : PortfolioMetrics
  rotationSignals : Option (List RotationSignal)
  holdings : Option (List Holding)
  deriving DecidableEq, Repr

/-- A stock-data bar (only `close` is read by the core logic). -/
structure StockData where
  close : ℚ
  deriving DecidableEq, Repr

/-- Input consumed by the agents. -/
structure AgentInput where
  symbol : String
  stockData : List StockData
  portfolioState : PortfolioState
  actualAllocations : Option ActualAllocations
  positionLimits : Option PositionLimits
  deriving DecidableEq, Repr

/-- Market metrics derived by `calculateMarketMetrics`. -/
structure MarketMetrics where
  marketTrend : String
  treasuryTrend : String
  treasurySpread : ℚ
  marketSentiment : String
  deriving DecidableEq, Repr

/-- A recommendation entry -/
structure Recommendation where
  action : String
  symbol : String
  timeframe : String
  conviction : ℚ
  rationale : String
  targetPrice : Option ℚ
  stopLoss : Option ℚ
  deriving DecidableEq, Repr

/-- The metrics record attached to an agent output. -/
structure Metrics where
  vixLevel : Option ℚ
  vixTrend : Option String
  riskLevel : Option String
  sharpeRatio : Option ℚ
  actualAllocations : Option ActualAllocations
  recommendedAllocations : Option Allocations
  rotationSignals : Option (List RotationSignal)
  exceedsPositionLimits : Option Bool
  exceedsCombinedLimits : Option Bool
  supportLevels : Option (List ℚ)
  resistanceLevels : Option (List ℚ)
  deriving DecidableEq, Repr

/-- The output of an agent. -/
structure AgentOutput where
  summary : String
  analysis : String
  confidence : ℚ
  recommendations : List Recommendation
  metrics : Metrics
  risks : List String
  deriving DecidableEq, Repr

/-- Price targets of the final analysis report. -/
structure PriceTargets where
  bullish : ℚ
  base : ℚ
  bearish : ℚ
  deriving DecidableEq, Repr

/-- The final report assembled by `ReportGenerationAgent.generateReport`. -/
structure AnalysisReport where
  symbol : String
  timestamp : ℕ
  fundamentalAnalysis : AgentOutput
  technicalAnalysis : AgentOutput
  sentimentAnalysis : AgentOutput
  macroAnalysis : AgentOutput
  finalRecommendation : String
  confidence : ℚ
  risks : List String
  supportLevels : List ℚ
  resistanceLevels : List ℚ
  priceTargets : PriceTargets
  deriving DecidableEq, Repr

/-! ### Allocation calculator (`NaturalLanguageSummaryAgent`) -/

/-- Read of `positionLimits?.maxSingleOptionETF || 0.05`. -/
def maxSingleOptionETF (pl : Option PositionLimits) : ℚ :=
  jsOrNum (pl.bind (·.maxSingleOptionETF)) 0.05

/-- Read of `positionLimits?.maxCombinedOptionETFs || 0.25`. -/
def maxCombinedOptionETFs (pl : Option PositionLimits) : ℚ :=
  jsOrNum (pl.bind (·.maxCombinedOptionETFs)) 0.25

/-- Read of `positionLimits?.idealIncomePieAllocation || 0.60`. -/
def idealIncomePieAllocation (pl : Option PositionLimits) : ℚ :=
  jsOrNum (pl.bind (·.idealIncomePieAllocation)) 0.60

def optionETFSymbols : List String := ["FEPI", "QQQY", "SDTY"]

def shortTermSymbols : List String := ["SHY"]

def treasurySymbols : List String := ["EDV"]

/-- Current (option-ETF, short-term, treasury) allocations summed from the
actual holdings, as in the loop of `calculateAllocations`. -/
def currentAllocations (aa : Option ActualAllocations) : ℚ × ℚ × ℚ :=
  match aa.bind (·.holdings) with
  | some hs =>
      hs.foldl (fun acc h =>
        if h.symbol ∈ optionETFSymbols then (acc.1 + h.allocation, acc.2.1, acc.2.2)
        else if h.symbol ∈ shortTermSymbols then (acc.1, acc.2.1 + h.allocation, acc.2.2)
        else if h.symbol ∈ treasurySymbols then (acc.1, acc.2.1, acc.2.2 + h.allocation)
        else acc) (0, 0, 0)
  | none => (0, 0, 0)

/-- Sum of the three bucket totals of an allocation plan. -/
def sumTotals (a : Allocations) : ℚ :=
  a.incomePie.total + a.shortTermTreasury.total + a.treasuryETF.total

/-- The `normalizeAllocations` method: proportionally rescale the three bucket totals
when their sum is off from 1 by more than 0.001. -/
def normalizeAllocations (a : Allocations) : Allocations :=
  let totalAllocation := a.incomePie.total + a.shortTermTreasury.total + a.treasuryETF.total
  if |totalAllocation - 1| > 0.001 then
    let normalizationFactor := 1 / totalAllocation
    { a with
      incomePie := { a.incomePie with total := a.incomePie.total * normalizationFactor }
      shortTermTreasury :=
        { a.shortTermTreasury with total := a.shortTermTreasury.total * normalizationFactor }
      treasuryETF := { a.treasuryETF with total := a.treasuryETF.total * normalizationFactor } }
  else a

/-- The base allocation preset of `calculateAllocations`. -/
def baseAllocations (aa : Option ActualAllocations) (pl : Option PositionLimits) : Allocations :=
  let cur := currentAllocations aa
  { incomePie :=
      { total := if cur.1 > 0 then cur.1
                 else min (idealIncomePieAllocation pl) (maxCombinedOptionETFs pl)
        FEPI := 0.35
        SDTY := 0.35
        QQQY := 0.30 }
    shortTermTreasury := { total := if cur.2.1 > 0 then cur.2.1 else 0.2, SHY := 1.00 }
    treasuryETF := { total := if cur.2.2 > 0 then cur.2.2 else 0.2, EDV := 1.00 }
    note := none }

/-- The high-VIX (VIX > 30) allocation preset of `calculateAllocations`. -/
def highVixAllocations (pl : Option PositionLimits) : Allocations :=
  { incomePie := { total := maxCombinedOptionETFs pl, FEPI := 0.40, SDTY := 0.35, QQQY := 0.25 }
    shortTermTreasury := { total := (1 - maxCombinedOptionETFs pl) * 0.5, SHY := 1.00 }
    treasuryETF := { total := (1 - maxCombinedOptionETFs pl) * 0.5, EDV := 1.00 }
    note := none }

/-- The medium-VIX (VIX > 25) allocation preset of `calculateAllocations`. -/
def midVixAllocations (pl : Option PositionLimits) : Allocations :=
  { incomePie :=
      { total := maxCombinedOptionETFs pl + 0.05, FEPI := 0.40, SDTY := 0.35, QQQY := 0.25 }
    shortTermTreasury :=
      { total := (1 - (maxCombinedOptionETFs pl + 0.05)) * 0.5, SHY := 1.00 }
    treasuryETF := { total := (1 - (maxCombinedOptionETFs pl + 0.05)) * 0.5, EDV := 1.00 }
    note := none }

/-- The limit-exceeded allocation preset of `calculateAllocations`. -/
def limitAdjustedAllocations (pl : Option PositionLimits) : Allocations :=
  { incomePie := { total := maxCombinedOptionETFs pl, FEPI := 0.35, SDTY := 0.35, QQQY := 0.30 }
    shortTermTreasury := { total := (1 - maxCombinedOptionETFs pl) * 0.5, SHY := 1.00 }
    treasuryETF := { total := (1 - maxCombinedOptionETFs pl) * 0.5, EDV := 1.00 }
    note := none }

/-- Truthy test of `actualAllocations?.limitExceeded?.combinedOptionETFs`. -/
def combinedLimitFlag (aa : Option ActualAllocations) : Bool :=
  jsTruthy ((aa.bind (·.limitExceeded)).bind (·.combinedOptionETFs))

/-- The `calculateAllocations` method. -/
def calculateAllocations (vixLevel : ℚ) (aa : Option ActualAllocations)
    (pl : Option PositionLimits) : Allocations :=
  let base := normalizeAllocations (baseAllocations aa pl)
  if vixLevel > 30 then normalizeAllocations (highVixAllocations pl)
  else if vixLevel > 25 then normalizeAllocations (midVixAllocations pl)
  else if combinedLimitFlag aa then normalizeAllocations (limitAdjustedAllocations pl)
  else base

/-- The `generateAdjustedAllocations` method: a second pass against position limits. -/
def generateAdjustedAllocations (allocations : Allocations)
    (pl : Option PositionLimits) : Allocations :=
  let maxSingle := maxSingleOptionETF pl
  let maxCombined := maxCombinedOptionETFs pl
  let fepiAllocation := allocations.incomePie.total * allocations.incomePie.FEPI
  let sdtyAllocation := allocations.incomePie.total * allocations.incomePie.SDTY
  let qqqyAllocation := allocations.incomePie.total * allocations.incomePie.QQQY
  if ¬(fepiAllocation > maxSingle ∨ sdtyAllocation > maxSingle ∨ qqqyAllocation > maxSingle) ∧
      allocations.incomePie.total ≤ maxCombined then
    allocations
  else
    normalizeAllocations
      { incomePie :=
          { total := min allocations.incomePie.total maxCombined
            FEPI := 0.33
            SDTY := 0.33
            QQQY := 0.34 }
        shortTermTreasury := { total := allocations.shortTermTreasury.total, SHY := 1.00 }
        treasuryETF := { total := allocations.treasuryETF.total, EDV := 1.00 }
        note := some "Adjusted to respect position limits: 5% max per option ETF, 25% max combined" }

/-! ### Summary and analysis text (`NaturalLanguageSummaryAgent`) -/

/-- The `calculateMarketMetrics` method. -/
def calculateMarketMetrics (input : AgentInput) : MarketMetrics :=
  let portfolioState := input.portfolioState
  let marketCondition := portfolioState.marketCondition
  { marketTrend := if portfolioState.metrics.sharpeRatio > 0 then "positive" else "negative"
    treasuryTrend :=
      if marketCondition.tenYearYield > marketCondition.twoYearYield then "positive"
      else "negative"
    treasurySpread := marketCondition.tenYearYield - marketCondition.twoYearYield
    marketSentiment := marketCondition.riskLevel }

/-- The `getVixStatusSummary` method. -/
def getVixStatusSummary (vixLevel : ℚ) : String :=
  if vixLevel > 30 then
    "⚠️ HIGH RISK ALERT: VIX above 30 - Implement maximum defensive positioning"
  else if vixLevel > 25 then
    "⚠️ ELEVATED RISK: VIX above 25 - Reduce option ETF exposure"
  else if vixLevel > 20 then
    "📊 MONITOR: VIX above 20 - Enhanced monitoring required"
  else
    "✅ NORMAL: VIX below 20 - Maintain standard allocations"

/-- Integer income-pie percentage displayed by `generateStrategySummary`. -/
def incomePiePercent (allocations : Allocations) : ℤ :=
  jsRound (allocations.incomePie.total * 100)

/-- Integer short-term-treasury percentage displayed by `generateStrategySummary`. -/
def shortTermTreasuryPercent (allocations : Allocations) : ℤ :=
  jsRound (allocations.shortTermTreasury.total * 100)

/-- Integer treasury-ETF percentage displayed by `generateStrategySummary`:
computed as 100 minus the two rounded percentages. -/
def treasuryETFPercent (allocations : Allocations) : ℤ :=
  100 - incomePiePercent allocations - shortTermTreasuryPercent allocations

/-- The `generateStrategySummary` method. -/
def generateStrategySummary (vixLevel : ℚ) (marketMetrics : MarketMetrics)
    (allocations : Allocations) (exceedsPositionLimits exceedsCombinedLimits : Bool) : String :=
  let positionWarning :=
    if exceedsPositionLimits || exceedsCombinedLimits then
      "\n⚠️ POSITION LIMIT ALERT: Current allocations exceed recommended limits. Adjustments needed."
    else ""
  let vixStr := toFixedStr vixLevel 2
  let vixStatus := getVixStatusSummary vixLevel
  let ip := incomePiePercent allocations
  let stp := shortTermTreasuryPercent allocations
  let tep := treasuryETFPercent allocations
  s!"M1 Portfolio Strategy Analysis\n\nCurrent market conditions indicate a {marketMetrics.marketTrend} trend with VIX at {vixStr}. Based on our strategic rotation system:\n\n{vixStatus}{positionWarning}\n\nRecommended Portfolio Allocation:\n- Income Factory: {ip}%\n- Short-Term Treasury: {stp}%\n- Treasury ETF: {tep}%"

/-- The local `VIX_THRESHOLDS` constant of `generateDetailedAnalysis`. -/
structure VixThresholds where
  MONITOR : ℚ
  FIRST_REDUCTION : ℚ
  SECOND_REDUCTION : ℚ
  deriving DecidableEq, Repr

/-- Value of the local `VIX_THRESHOLDS` constant. -/
def vixThresholds : VixThresholds :=
  { MONITOR := 20, FIRST_REDUCTION := 25, SECOND_REDUCTION := 30 }

/-- The `getVixAnalysis` method. -/
def getVixAnalysis (vixLevel : ℚ) (th : VixThresholds) : String :=
  let v := toFixedStr vixLevel 2
  if vixLevel > th.SECOND_REDUCTION then
    s!"🚨 CRITICAL: VIX ({v}) exceeds {th.SECOND_REDUCTION}\n- Reduce option ETF exposure to 25% of original position\n- Increase Treasury allocations significantly\n- Implement strict risk controls"
  else if vixLevel > th.FIRST_REDUCTION then
    s!"⚠️ WARNING: VIX ({v}) exceeds {th.FIRST_REDUCTION}\n- Reduce option ETF exposure by 25%\n- Increase Treasury allocations moderately\n- Enhanced monitoring required"
  else if vixLevel > th.MONITOR then
    s!"📊 MONITOR: VIX ({v}) exceeds {th.MONITOR}\n- Maintain current positions\n- Prepare for potential adjustments\n- Increase monitoring frequency"
  else
    s!"✅ NORMAL: VIX ({v}) below {th.MONITOR}\n- Maintain standard allocations\n- Regular monitoring sufficient\n- Focus on yield optimization"

/-- The `getImplementationStrategy` method; it reads
`portfolioState.rotationSignals.length` without a default, so a missing
`rotationSignals` raises a `TypeError`. -/
def getImplementationStrategy (vixLevel : ℚ) (marketMetrics : MarketMetrics)
    (portfolioState : PortfolioState) : Except String String :=
  match portfolioState.rotationSignals with
  | none => Except.error "TypeError: Cannot read properties of undefined (reading length)"
  | some rotationSignals =>
    let positionLimitInstructions :=
      if rotationSignals.length > 0 then
        "- Prioritize implementation of current rotation signals\n"
      else ""
    let priority :=
      if vixLevel > 25 then "🚨 HIGH PRIORITY - Execute adjustments within 1-2 trading days"
      else if vixLevel > 20 then "⚠️ MEDIUM PRIORITY - Execute adjustments within 3-5 trading days"
      else "✅ NORMAL PRIORITY - Regular rebalancing schedule"
    let step1 :=
      if vixLevel > 25 then "Reduce option ETF exposure first" else "Monitor option ETF performance"
    let step2 :=
      if vixLevel > 25 then "Increase Treasury positions second" else "Maintain Treasury allocations"
    let step3 :=
      if vixLevel > 25 then "Review and adjust stop levels" else "Regular stop level monitoring"
    let sizing := if vixLevel > 30 then "Minimum" else if vixLevel > 25 then "Reduced" else "Standard"
    let treasurySizing := if vixLevel > 25 then "Increased" else "Standard"
    Except.ok s!"### Implementation Priority\n{priority}\n\n### Execution Strategy\n{positionLimitInstructions}1. {step1}\n2. {step2}\n3. {step3}\n\n### Position Sizing\n- Option ETFs: {sizing} position sizes\n- Treasuries: {treasurySizing} allocation"

/-- The `getMonitoringChecklist` method. -/
def getMonitoringChecklist : String :=
  "### Daily Monitoring\n- [ ] Check VIX level and trend\n- [ ] Monitor option ETF price movements\n- [ ] Review market news for volatility triggers\n\n### Weekly Review\n- [ ] Calculate 5-day VIX moving average\n- [ ] Assess Treasury yield curve changes\n- [ ] Review option ETF performance metrics\n- [ ] Evaluate rotation signals\n\n### Monthly Assessment\n- [ ] Calculate 3-month rolling performance\n- [ ] Evaluate NAV erosion metrics\n- [ ] Update distribution yield calculations\n- [ ] Review strategy effectiveness"

/-- The `generateDetailedAnalysis` method. -/
def generateDetailedAnalysis (vixLevel : ℚ) (marketMetrics : MarketMetrics)
    (allocations : Allocations) (portfolioState : PortfolioState) : Except String String := do
  let positionLimitNotes :=
    match allocations.note with
    | some n => "\n## Position Limit Notes\n" ++ n
    | none => ""
  let implementationStrategy ← getImplementationStrategy vixLevel marketMetrics portfolioState
  let v := toFixedStr vixLevel 2
  let trendUpper := marketMetrics.marketTrend.toUpper
  let spread := toFixedStr marketMetrics.treasurySpread 2
  let vixAnalysis := getVixAnalysis vixLevel vixThresholds
  let incomeTotalPct := toFixedStr (allocations.incomePie.total * 100) 0
  let fepiPct := toFixedStr (allocations.incomePie.FEPI * allocations.incomePie.total * 100) 1
  let sdtyPct := toFixedStr (allocations.incomePie.SDTY * allocations.incomePie.total * 100) 1
  let qqqyPct := toFixedStr (allocations.incomePie.QQQY * allocations.incomePie.total * 100) 1
  let shyPct := toFixedStr (allocations.shortTermTreasury.total * 100) 1
  let edvPct := toFixedStr (allocations.treasuryETF.total * 100) 1
  let checklist := getMonitoringChecklist
  Except.ok s!"# Strategic Rotation System Analysis\n\n## Market Environment\n- VIX Level: {v}\n- Market Trend: {trendUpper}\n- Treasury Spread: {spread}%\n- Risk Level: {portfolioState.marketCondition.riskLevel}\n\n## VIX Threshold Analysis\n🔍 Current Status:\n{vixAnalysis}\n\n## Recommended Allocations\n\n### Income Factory ({incomeTotalPct}% Total)\n- FEPI: {fepiPct}%\n- SDTY: {sdtyPct}%\n- QQQY: {qqqyPct}%\n\n### Treasury Allocations\n- SHY: {shyPct}%\n- EDV: {edvPct}%{positionLimitNotes}\n\n## Implementation Strategy\n{implementationStrategy}\n\n## Monitoring Checklist\n{checklist}"

/-- Default recommendations of `generateStrategyRecommendations` when no
rotation signals are available. -/
def defaultStrategyRecommendations (vixLevel sharpeRatio : ℚ) : List Recommendation :=
  if vixLevel > 25 then
    [{ action := "SELL", symbol := "OPTION_ETFS", timeframe := "short-term", conviction := 7,
       rationale := "VIX above " ++ toFixedStr vixLevel 2 ++ " suggests elevated market risk",
       targetPrice := none, stopLoss := none }]
  else if sharpeRatio < -1 then
    [{ action := "SELL", symbol := "OPTION_ETFS", timeframe := "medium-term", conviction := 6,
       rationale := "Negative Sharpe ratio (" ++ toFixedStr sharpeRatio 2 ++
         ") indicates poor risk-adjusted returns",
       targetPrice := none, stopLoss := none }]
  else
    [{ action := "HOLD", symbol := "PORTFOLIO", timeframe := "medium-term", conviction := 5,
       rationale := "Current market conditions remain stable",
       targetPrice := none, stopLoss := none }]

/-- The `generateStrategyRecommendations` method. -/
def generateStrategyRecommendations (portfolioState : PortfolioState) : List Recommendation :=
  let vixLevel := portfolioState.marketCondition.vix
  match portfolioState.rotationSignals with
  | some signals =>
      if signals.length > 0 then
        signals.map (fun signal =>
          { action := if signal.type = "INCREASE" then "BUY"
                      else if signal.type = "REDUCE" then "SELL" else "HOLD"
            symbol := signal.symbol
            timeframe := if signal.urgency = "HIGH" then "short-term" else "medium-term"
            conviction := if signal.urgency = "HIGH" then 8
                          else if signal.urgency = "MEDIUM" then 6 else 4
            rationale := signal.reason
            targetPrice := none
            stopLoss := none })
      else defaultStrategyRecommendations vixLevel portfolioState.metrics.sharpeRatio
  | none => defaultStrategyRecommendations vixLevel portfolioState.metrics.sharpeRatio

/-- The `calculateStrategyConfidence` method. -/
def calculateStrategyConfidence (vixLevel sharpeRatio : ℚ)
    (marketMetrics : MarketMetrics) : ℚ :=
  let confidence : ℚ := 0.7
  let confidence :=
    if vixLevel > 30 then confidence - 0.2
    else if vixLevel < 15 then confidence + 0.1
    else confidence
  let confidence :=
    if sharpeRatio < -1 then confidence - 0.2
    else if sharpeRatio > 1 then confidence + 0.1
    else confidence
  let confidence :=
    if marketMetrics.marketTrend = "positive" ∧ sharpeRatio > 0 then confidence + 0.1
    else if marketMetrics.marketTrend = "negative" ∧ sharpeRatio < 0 then confidence + 0.1
    else confidence - 0.1
  max 0 (min 1 confidence)

/-- The `identifyStrategyRisks` method; it calls `holdings.filter` directly,
so a missing `portfolioState.holdings` raises a `TypeError`. -/
def identifyStrategyRisks (portfolioState : PortfolioState)
    (exceedsPositionLimits : Bool) : Except String (List String) :=
  match portfolioState.holdings with
  | none => Except.error "TypeError: Cannot read properties of undefined (reading filter)"
  | some holdings =>
    let marketCondition := portfolioState.marketCondition
    let metrics := portfolioState.metrics
    let risks : List String :=
      if marketCondition.vix > 25 then ["Elevated market volatility increases downside risk"]
      else []
    let risks := risks ++
      (if metrics.sharpeRatio < 0 then ["Negative risk-adjusted returns (Sharpe ratio)"] else [])
    let risks := risks ++
      (if exceedsPositionLimits then
        ["Position sizes exceed recommended limits, increasing concentration risk"]
      else [])
    let optionETFs := holdings.filter (fun h => ["FEPI", "QQQY", "SDTY"].contains h.symbol)
    let poorPerformingETFs := optionETFs.filter (fun h => decide (h.weeklyPerformance < -3))
    let risks := risks ++
      (if poorPerformingETFs.length > 0 then
        ["Weak option ETF performance may indicate continued pressure"]
      else [])
    let highErosionETFs := optionETFs.filter (fun h => decide (h.navErosion < -5))
    let risks := risks ++
      (if highErosionETFs.length > 0 then
        ["Significant NAV erosion detected in option ETFs"]
      else [])
    let risks := risks ++
      (if metrics.totalYield < 0.1 then ["Portfolio yield below target threshold"] else [])
    let risks := if risks.length = 0 then ["Weak trend strength may lead to false signals"] else risks
    Except.ok risks

/-- The `NaturalLanguageSummaryAgent.analyze` method. -/
def analyze (input : AgentInput) : Except String AgentOutput := do
  let portfolioState := input.portfolioState
  let vixLevel := portfolioState.marketCondition.vix
  let vixTrend := portfolioState.marketCondition.vixTrend
  let riskLevel := portfolioState.marketCondition.riskLevel
  let sharpeRatio := portfolioState.metrics.sharpeRatio
  let exceedsPositionLimits :=
    jsTruthy ((input.actualAllocations.bind (·.limitExceeded)).bind (·.individualPositions))
  let exceedsCombinedLimits := combinedLimitFlag input.actualAllocations
  let marketMetrics := calculateMarketMetrics input
  let allocations := calculateAllocations vixLevel input.actualAllocations input.positionLimits
  let adjustedAllocations := generateAdjustedAllocations allocations input.positionLimits
  let summary := generateStrategySummary vixLevel marketMetrics adjustedAllocations
    exceedsPositionLimits exceedsCombinedLimits
  let analysis ← generateDetailedAnalysis vixLevel marketMetrics adjustedAllocations portfolioState
  let recommendations := generateStrategyRecommendations portfolioState
  let confidence := calculateStrategyConfidence vixLevel sharpeRatio marketMetrics
  let risks ← identifyStrategyRisks portfolioState exceedsPositionLimits
  Except.ok
    { summary := summary
      analysis := analysis
      confidence := confidence
      recommendations := recommendations
      metrics :=
        { vixLevel := some vixLevel
          vixTrend := some vixTrend
          riskLevel := some riskLevel
          sharpeRatio := some sharpeRatio
          actualAllocations := input.actualAllocations
          recommendedAllocations := some adjustedAllocations
          rotationSignals := portfolioState.rotationSignals
          exceedsPositionLimits := some exceedsPositionLimits
          exceedsCombinedLimits := some exceedsCombinedLimits
          supportLevels := none
          resistanceLevels := none }
      risks := risks }

/-! ### Report composer (`ReportGenerationAgent`) -/

/-- The `generateStrategicAssessment` method. -/
def generateStrategicAssessment (macroAnalysis : AgentOutput) : String :=
  let vixLevel := jsOrNum macroAnalysis.metrics.vixLevel 0
  let vixTrend := jsOrString macroAnalysis.metrics.vixTrend "NEUTRAL"
  let summaryLower := macroAnalysis.summary.toLower
  let trendLower := vixTrend.toLower
  let v := toFixedStr vixLevel 2
  let attention :=
    if vixLevel > 25 then "immediate attention"
    else if vixLevel > 20 then "careful monitoring"
    else "standard oversight"
  let analysisHead := String.intercalate "\n" ((macroAnalysis.analysis.splitOn "\n").take 3)
  s!"The market environment is currently showing {summaryLower}\n\nWith VIX at {v} and {trendLower} trend, your portfolio requires {attention}.\n\n{analysisHead}"

/-- The `getRotationSignals` method of the report agent. -/
def getRotationSignals (macroAnalysis : AgentOutput) : List String :=
  match macroAnalysis.metrics.rotationSignals with
  | none => []
  | some rotationSignals =>
    (rotationSignals.map (fun signal =>
      if signal.type = "INCREASE" then
        s!"Increase {signal.symbol} allocation because {signal.reason.toLower}"
      else if signal.type = "REDUCE" then
        s!"Reduce {signal.symbol} allocation because {signal.reason.toLower}"
      else if signal.type = "ROTATE" then
        s!"Rotate from {showUndef signal.fromSymbol} to {signal.symbol} because {signal.reason.toLower}"
      else "")).filter (fun s => s != "")

/-- The `defaultAllocations` constant of `generateActionPlan`. -/
def defaultActionPlanAllocations : Allocations :=
  { incomePie := { total := 0.25, FEPI := 0.33, SDTY := 0.33, QQQY := 0.34 }
    shortTermTreasury := { total := 0.375, SHY := 1.0 }
    treasuryETF := { total := 0.375, EDV := 1.0 }
    note := none }

/-- In-place update of `macroAnalysis.metrics.recommendedAllocations`
performed by the normalization step of `generateActionPlan`. -/
def setRecommendedAllocations (macroAnalysis : AgentOutput) (a : Allocations) : AgentOutput :=
  { macroAnalysis with
    metrics := { macroAnalysis.metrics with recommendedAllocations := some a } }

/-- Text assembly of `generateActionPlan`, applied to the (already
normalized) recommended allocations. -/
def actionPlanText (macroAnalysis : AgentOutput) (recommendedAllocations : Allocations) : String :=
  let vixLevel := jsOrNum macroAnalysis.metrics.vixLevel 0
  let rotationSignals := getRotationSignals macroAnalysis
  let reduceMsg :=
    s!"Reduce option ETF exposure to {toFixedStr (recommendedAllocations.incomePie.total * 100) 0}% of portfolio due to elevated VIX ({toFixedStr vixLevel 2})."
  let priorityActions := if vixLevel > 25 then [reduceMsg] else []
  let priorityActions := priorityActions ++
    (match rotationSignals.head? with | some s => [s] | none => [])
  let priorityActions := priorityActions ++
    (if jsTruthy macroAnalysis.metrics.exceedsPositionLimits then
      ["Rebalance individual option ETF positions to stay within 5% individual position limits."]
    else [])
  let priorityActions := priorityActions ++
    (if jsTruthy macroAnalysis.metrics.exceedsCombinedLimits then
      ["Reduce combined option ETF allocation to maximum 25% of portfolio."]
    else [])
  let priorityActions := priorityActions ++
    (if priorityActions.length < 3 then
      ["Monitor Treasury yield curve for rotation signals between income ETFs and Treasury ETFs."]
    else [])
  let priorityActions := priorityActions ++
    (if priorityActions.length < 3 then
      ["Review distribution schedules for upcoming payouts from income ETFs."]
    else [])
  let priorityActions := priorityActions.take 4
  String.intercalate "\n\n" (priorityActions.enum.map (fun p => s!"{p.1 + 1}. {p.2}"))

/-- The `generateActionPlan` method. Returns the action-plan text together
with the macro `AgentOutput` as it stands after the method's in-place
normalization of `metrics.recommendedAllocations`. -/
def generateActionPlan (macroAnalysis : AgentOutput) : String × AgentOutput :=
  match macroAnalysis.metrics.recommendedAllocations with
  | some recAllocations =>
      let normalized := normalizeAllocations recAllocations
      (actionPlanText macroAnalysis normalized,
        setRecommendedAllocations macroAnalysis normalized)
  | none =>
      let normalized := normalizeAllocations defaultActionPlanAllocations
      (actionPlanText macroAnalysis normalized, macroAnalysis)

/-- The `generateMarketContext` method. -/
def generateMarketContext (technicalAnalysis : AgentOutput) : String :=
  let keyContext :=
    ((technicalAnalysis.analysis.splitOn "\n").filter (fun line =>
      jsIncludes line "trend" || jsIncludes line "momentum" || jsIncludes line "sentiment" ||
      jsIncludes line "support" || jsIncludes line "resistance")).take 3
  if keyContext.length = 0 then technicalAnalysis.summary
  else String.intercalate "\n" keyContext

/-- The `generateRiskSnapshot` method. -/
def generateRiskSnapshot (fundamentalAnalysis technicalAnalysis sentimentAnalysis
    macroAnalysis : AgentOutput) : String :=
  let allRisks := (macroAnalysis.risks ++ technicalAnalysis.risks ++
    fundamentalAnalysis.risks ++ sentimentAnalysis.risks).take 3
  let vixLevel := jsOrNum macroAnalysis.metrics.vixLevel 0
  let protection :=
    if vixLevel > 25 then "increase Treasury allocations to at least 50% of portfolio"
    else "maintain balanced exposure between option ETFs and Treasuries"
  let mitigation1 := s!"For protection, {protection}"
  let alertLevel : ℤ := ⌊vixLevel⌋ + 5
  let mitigation2 :=
    s!"Set price alerts for VIX at {alertLevel} to trigger defensive action if volatility increases"
  let risksStr := String.intercalate ", " (allRisks.map (fun r => s!"*{r}*"))
  s!"Key risks to watch: {risksStr}\n\n{mitigation1}\n\n{mitigation2}"

/-- Conviction-weighted vote shares (BUY, SELL, HOLD) accumulated by the
`getRecommendation` closure of `generateReport`. -/
def voteWeights (recs : List Recommendation) : ℚ × ℚ × ℚ :=
  let totalConviction := recs.foldl (fun sum r => sum + r.conviction) 0
  recs.foldl (fun acc r =>
    let weight := r.conviction / totalConviction
    (acc.1 + (if r.action = "BUY" then weight else 0),
     acc.2.1 + (if r.action = "SELL" then weight else 0),
     acc.2.2 + (if r.action = "HOLD" then weight else 0))) (0, 0, 0)

/-- The `Object.entries(weightedAction).reduce((a, b) => a[1] > b[1] ? a : b)`
step of `getRecommendation`, iterating in the order BUY, SELL, HOLD. -/
def chooseDominantAction (weightedAction : ℚ × ℚ × ℚ) : String :=
  let best :=
    if weightedAction.1 > weightedAction.2.1 then ("BUY", weightedAction.1)
    else ("SELL", weightedAction.2.1)
  if best.2 > weightedAction.2.2 then best.1 else "HOLD"

/-- The `getRecommendation` closure of `generateReport`. -/
def getRecommendation (recs : List Recommendation) : String :=
  let weightedAction := voteWeights recs
  let action := chooseDominantAction weightedAction
  let matching := recs.filter (fun r => r.action == action)
  let conviction := jsRound
    ((recs.foldl (fun sum r => sum + (if r.action = action then r.conviction else 0)) 0) /
      (matching.length : ℚ))
  s!"{action} (Conviction: {conviction}/10)"

/-- The `ReportGenerationAgent.generateReport` method. `Date.now()` is the
explicit `now` argument; property accesses on `undefined` (empty
`stockData`, empty recommendation lists) are `TypeError`s. -/
def generateReport (now : ℕ) (input : AgentInput)
    (fundamentalAnalysis technicalAnalysis sentimentAnalysis macroAnalysis
      naturalLanguageAnalysis : AgentOutput) : Except String AnalysisReport :=
  match input.stockData.getLast? with
  | none => Except.error "TypeError: Cannot read properties of undefined (reading close)"
  | some lastBar =>
    let currentPrice := lastBar.close
    let assessment := generateStrategicAssessment macroAnalysis
    let actionPlan := generateActionPlan macroAnalysis
    let marketContext := generateMarketContext technicalAnalysis
    let riskSnapshot := generateRiskSnapshot fundamentalAnalysis technicalAnalysis
      sentimentAnalysis macroAnalysis
    let finalRecommendation := s!"# {input.symbol} Analysis Summary\n\n{naturalLanguageAnalysis.summary}\n\n## Strategic Assessment\n\n{assessment}\n\n## Action Plan\n\n{actionPlan.1}\n\n## Market Context\n\n{marketContext}\n\n## Risk Snapshot\n\n{riskSnapshot}"
    let confidence :=
      fundamentalAnalysis.confidence * 0.3 + technicalAnalysis.confidence * 0.3 +
        sentimentAnalysis.confidence * 0.2 + macroAnalysis.confidence * 0.2
    match technicalAnalysis.recommendations.head? with
    | none => Except.error "TypeError: Cannot read properties of undefined (reading timeframe, technical)"
    | some tech0 =>
      match sentimentAnalysis.recommendations.head? with
      | none => Except.error "TypeError: Cannot read properties of undefined (reading timeframe, sentiment)"
      | some sent0 =>
        match macroAnalysis.recommendations.head? with
        | none => Except.error "TypeError: Cannot read properties of undefined (reading timeframe, macro)"
        | some macro0 =>
          match fundamentalAnalysis.recommendations.head? with
          | none => Except.error "TypeError: Cannot read properties of undefined (reading timeframe, fundamental)"
          | some fund0 =>
            let shortTermRecs := [tech0, sent0, macro0].filter (fun r => r.timeframe == "short-term")
            let longTermRecs := [fund0, tech0].filter (fun r => r.timeframe == "long-term")
            let _shortRecommendation := getRecommendation shortTermRecs
            let _longRecommendation := getRecommendation longTermRecs
            let priceTargets : PriceTargets :=
              if jsTruthyNum tech0.targetPrice then
                { bullish := tech0.targetPrice.getD 0
                  base := currentPrice
                  bearish := jsOrNum tech0.stopLoss (currentPrice * 0.9) }
              else
                { bullish := currentPrice * 1.1, base := currentPrice,
                  bearish := currentPrice * 0.9 }
            let supportLevels := technicalAnalysis.metrics.supportLevels.getD []
            let resistanceLevels := technicalAnalysis.metrics.resistanceLevels.getD []
            let risks := fundamentalAnalysis.risks ++ technicalAnalysis.risks ++
              sentimentAnalysis.risks ++ macroAnalysis.risks
            Except.ok
              { symbol := input.symbol
                timestamp := now
                fundamentalAnalysis := fundamentalAnalysis
                technicalAnalysis := technicalAnalysis
                sentimentAnalysis := sentimentAnalysis
                macroAnalysis := actionPlan.2
                finalRecommendation := finalRecommendation
                confidence := confidence
                risks := risks
                supportLevels := supportLevels
                resistanceLevels := resistanceLevels
                priceTargets := priceTargets }


/-! ### Example inputs used by witnesses and counterexamples -/

/-- Position limits under which the base preset has bucket totals summing
to 1.0005. -/
def exOffByHalfLimits : PositionLimits :=
  { maxSingleOptionETF := none
    maxCombinedOptionETFs := some 0.6005
    idealIncomePieAllocation := some 0.6005 }

/-- Two equally-weighted recommendations, BUY encountered first. -/
def exTiedRecs : List Recommendation :=
  [{ action := "BUY", symbol := "AAA", timeframe := "short-term", conviction := 5,
     rationale := "r", targetPrice := none, stopLoss := none },
   { action := "HOLD", symbol := "BBB", timeframe := "short-term", conviction := 5,
     rationale := "r", targetPrice := none, stopLoss := none }]

/-- A minimal portfolio state with rotation signals and holdings present. -/
def exPortfolioState : PortfolioState :=
  { marketCondition :=
      { vix := 18, vixTrend := "STABLE", riskLevel := "MODERATE",
        tenYearYield := 4.2, twoYearYield := 4.0 }
    metrics := { sharpeRatio := 1.2, totalYield := 0.12 }
    rotationSignals := some []
    holdings := some [] }

/-- A full agent input on which `analyze` succeeds. -/
def exInput : AgentInput :=
  { symbol := "FEPI"
    stockData := [{ close := 50 }]
    portfolioState := exPortfolioState
    actualAllocations := none
    positionLimits := none }

/-- An empty metrics record. -/
def exEmptyMetrics : Metrics :=
  { vixLevel := none, vixTrend := none, riskLevel := none, sharpeRatio := none,
    actualAllocations := none, recommendedAllocations := none, rotationSignals := none,
    exceedsPositionLimits := none, exceedsCombinedLimits := none, supportLevels := none,
    resistanceLevels := none }

/-- The successful output of `analyze` on `exInput`. -/
def exAnalyzeOutput : AgentOutput :=
  ((analyze exInput).toOption).getD
    { summary := "", analysis := "", confidence := 0, recommendations := [],
      metrics := exEmptyMetrics, risks := [] }

/-- Input identical to `exInput` but with `rotationSignals` absent. -/
def exMissingSignalsInput : AgentInput :=
  { exInput with
    portfolioState := { exInput.portfolioState with rotationSignals := none } }

/-- Input identical to `exInput` but with empty stock data. -/
def exEmptyStockInput : AgentInput :=
  { exInput with stockData := [] }

/-- A sample recommendation. -/
def exRecommendation : Recommendation :=
  { action := "BUY", symbol := "FEPI", timeframe := "short-term", conviction := 7,
    rationale := "momentum", targetPrice := none, stopLoss := none }

/-- A sample agent output with a nonempty recommendation list. -/
def exAgentOutput : AgentOutput :=
  { summary := "Markets are stable", analysis := "trend is up", confidence := 0.8,
    recommendations := [exRecommendation], metrics := exEmptyMetrics,
    risks := ["volatility"] }

/-- Timestamp-stripped view of an analysis report. -/
def reportView (r : AnalysisReport) : AnalysisReport :=
  { r with timestamp := 0 }

/-! ### Normalization lemmas -/

/-- A plan whose totals already sum to within 0.001 of 1 is left unchanged by
`normalizeAllocations`. -/
theorem normalizeAllocations_eq_self (a : Allocations)
    (h : |sumTotals a - 1| ≤ 0.001) : normalizeAllocations a = a := by
  simp only [sumTotals] at h
  simp only [normalizeAllocations]
  rw [if_neg (not_lt.mpr h)]

/-- Sum of the bucket totals after `normalizeAllocations`: unchanged when the
input sum is within 0.001 of 1; otherwise rescaled to exactly 1 (degenerate
zero sums stay 0). -/
theorem sumTotals_normalizeAllocations (a : Allocations) :
    sumTotals (normalizeAllocations a) =
      if |sumTotals a - 1| ≤ 0.001 then sumTotals a
      else if sumTotals a = 0 then 0 else 1 := by
  by_cases hA : |sumTotals a - 1| ≤ 0.001
  · rw [normalizeAllocations_eq_self a hA, if_pos hA]
  · rw [if_neg hA]
    have hgt : (0.001 : ℚ) <
        |a.incomePie.total + a.shortTermTreasury.total + a.treasuryETF.total - 1| := by
      simp only [sumTotals] at hA
      exact not_le.mp hA
    have hL : sumTotals (normalizeAllocations a) = sumTotals a * (1 / sumTotals a) := by
      simp only [normalizeAllocations, sumTotals]
      rw [if_pos hgt]
      ring
    by_cases hC : sumTotals a = 0
    · rw [if_pos hC, hL, hC]
      simp
    · rw [if_neg hC, hL, mul_one_div, div_self hC]

/-- Every branch of `calculateAllocations` returns a normalized plan. -/
theorem calculateAllocations_normalized (vixLevel : ℚ) (aa : Option ActualAllocations)
    (pl : Option PositionLimits) :
    ∃ q, calculateAllocations vixLevel aa pl = normalizeAllocations q := by
  unfold calculateAllocations
  split_ifs <;> exact ⟨_, rfl⟩

/-- The adjustment pass either returns its input or a normalized plan. -/
theorem generateAdjustedAllocations_normalized (allocations : Allocations)
    (pl : Option PositionLimits) :
    generateAdjustedAllocations allocations pl = allocations ∨
      ∃ q, generateAdjustedAllocations allocations pl = normalizeAllocations q := by
  simp only [generateAdjustedAllocations]
  split_ifs
  · exact Or.inl rfl
  · exact Or.inr ⟨_, rfl⟩

/-! ### Claim C10 -/

/-- C10: `normalizeAllocations` mutates only the three bucket totals; every
per-symbol sub-weight (FEPI, SDTY, QQQY, SHY, EDV) and the note field of the
plan are unchanged. -/
theorem claim_C10_normalize_frame (a : Allocations) :
    (normalizeAllocations a).incomePie.FEPI = a.incomePie.FEPI ∧
    (normalizeAllocations a).incomePie.SDTY = a.incomePie.SDTY ∧
    (normalizeAllocations a).incomePie.QQQY = a.incomePie.QQQY ∧
    (normalizeAllocations a).shortTermTreasury.SHY = a.shortTermTreasury.SHY ∧
    (normalizeAllocations a).treasuryETF.EDV = a.treasuryETF.EDV ∧
    (normalizeAllocations a).note = a.note := by
  simp only [normalizeAllocations]
  split_ifs <;> simp

/-! ### Claim C9 -/

/-- C9: the three integer percentages displayed by `generateStrategySummary`
sum to exactly 100 for every allocation plan, because the treasury-ETF
percentage is defined as 100 minus the two rounded ones; and no
non-negativity is guaranteed (a concrete plan displays a negative
treasury-ETF percentage). -/
theorem claim_C9_displayed_percentages :
    (∀ a : Allocations,
      incomePiePercent a + shortTermTreasuryPercent a + treasuryETFPercent a = 100) ∧
    treasuryETFPercent
      { incomePie := { total := 0.9, FEPI := 0.35, SDTY := 0.35, QQQY := 0.30 }
        shortTermTreasury := { total := 0.9, SHY := 1 }
        treasuryETF := { total := 0.2, EDV := 1 }
        note := none } < 0 := by
  constructor
  · intro a
    unfold treasuryETFPercent
    ring
  · norm_num [treasuryETFPercent, incomePiePercent, shortTermTreasuryPercent, jsRound]

/-! ### Claim C2 -/

/-- C2 counterexample: with default position limits (`positionLimits` and
`actualAllocations` both absent) and VIX 10, the plan produced by
`calculateAllocations` followed by `generateAdjustedAllocations` gives QQQY
an allocation of 221/2250 ≈ 9.8%, exceeding the per-symbol cap
`maxSingleOptionETF = 0.05`; so the adjustment pass does not enforce the
per-symbol cap. -/
theorem claim_C2_counterexample :
    (generateAdjustedAllocations (calculateAllocations 10 none none) none).incomePie.total *
        (generateAdjustedAllocations (calculateAllocations 10 none none) none).incomePie.QQQY >
      maxSingleOptionETF none := by
  norm_num [generateAdjustedAllocations, calculateAllocations, baseAllocations,
    currentAllocations, normalizeAllocations, maxSingleOptionETF, maxCombinedOptionETFs,
    idealIncomePieAllocation, jsOrNum, combinedLimitFlag, jsTruthy, sumTotals, min_def,
    lt_abs, abs_le, optionETFSymbols, shortTermSymbols, treasurySymbols,
    highVixAllocations, midVixAllocations, limitAdjustedAllocations]

/-- C2 (amended): `generateAdjustedAllocations` either returns its input
unchanged — and then every per-symbol option-ETF allocation is at most
`maxSingleOptionETF` and the bucket total is at most
`maxCombinedOptionETFs` — or it resets the sub-weights to 0.33/0.33/0.34,
caps the income-pie total at `maxCombinedOptionETFs`, keeps the treasury
totals, attaches the note, and renormalizes; the capped remainder is not
redistributed across the option-ETF symbols and the per-symbol cap may be
violated after adjustment. -/
theorem claim_C2_adjustment_behavior (allocations : Allocations) (pl : Option PositionLimits) :
    (generateAdjustedAllocations allocations pl = allocations ∧
      allocations.incomePie.total * allocations.incomePie.FEPI ≤ maxSingleOptionETF pl ∧
      allocations.incomePie.total * allocations.incomePie.SDTY ≤ maxSingleOptionETF pl ∧
      allocations.incomePie.total * allocations.incomePie.QQQY ≤ maxSingleOptionETF pl ∧
      allocations.incomePie.total ≤ maxCombinedOptionETFs pl) ∨
    generateAdjustedAllocations allocations pl =
      normalizeAllocations
        { incomePie :=
            { total := min allocations.incomePie.total (maxCombinedOptionETFs pl)
              FEPI := 0.33, SDTY := 0.33, QQQY := 0.34 }
          shortTermTreasury := { total := allocations.shortTermTreasury.total, SHY := 1.00 }
          treasuryETF := { total := allocations.treasuryETF.total, EDV := 1.00 }
          note :=
            some "Adjusted to respect position limits: 5% max per option ETF, 25% max combined" } := by
  simp only [generateAdjustedAllocations]
  split_ifs with h
  · obtain ⟨h1, h2⟩ := h
    push_neg at h1
    exact Or.inl ⟨rfl, h1.1, h1.2.1, h1.2.2, h2⟩
  · exact Or.inr rfl

/-! ### Claim C4 -/

/-- C4 counterexample: under `exOffByHalfLimits` the base preset has bucket
totals 0.6005, 0.2, 0.2 summing to 1.0005 — within the 0.001 tolerance — so
`calculateAllocations` leaves them unchanged and the bucket totals of its
output sum to 2001/2000, not exactly 1.0. -/
theorem claim_C4_counterexample :
    sumTotals (calculateAllocations 10 none (some exOffByHalfLimits)) = 2001 / 2000 ∧
      sumTotals (calculateAllocations 10 none (some exOffByHalfLimits)) ≠ 1 := by
  constructor <;>
    norm_num [generateAdjustedAllocations, calculateAllocations, baseAllocations,
    currentAllocations, normalizeAllocations, maxSingleOptionETF, maxCombinedOptionETFs,
    idealIncomePieAllocation, jsOrNum, combinedLimitFlag, jsTruthy, sumTotals, min_def,
    lt_abs, abs_le, optionETFSymbols, shortTermSymbols, treasurySymbols,
    highVixAllocations, midVixAllocations, limitAdjustedAllocations, exOffByHalfLimits]

/-- C4 (amended): `calculateAllocations` selects exactly one of four presets
as a function of the VIX level against the thresholds 25 and 30 and of the
combined-limit-exceeded flag, and normalizes the selected preset; the
normalization rescales the bucket totals to sum to exactly 1 precisely when
their sum is off from 1 by more than 0.001 (and nonzero), and otherwise
leaves the totals — and hence a sum that may differ from 1 by up to
0.001 — unchanged. -/
theorem claim_C4_preset_selection_and_renormalization :
    (∀ (vixLevel : ℚ) (aa : Option ActualAllocations) (pl : Option PositionLimits),
      calculateAllocations vixLevel aa pl =
        if vixLevel > 30 then normalizeAllocations (highVixAllocations pl)
        else if vixLevel > 25 then normalizeAllocations (midVixAllocations pl)
        else if combinedLimitFlag aa then normalizeAllocations (limitAdjustedAllocations pl)
        else normalizeAllocations (baseAllocations aa pl)) ∧
    (∀ a : Allocations,
      sumTotals (normalizeAllocations a) =
        if |sumTotals a - 1| ≤ 0.001 then sumTotals a
        else if sumTotals a = 0 then 0 else 1) :=
  ⟨fun _ _ _ => rfl, sumTotals_normalizeAllocations⟩

/-! ### Claim C5 -/

/-- Characterization of the reduce-based dominant-action choice: it returns
an action of maximal weight, and on ties the last of the tied actions in the
iteration order BUY, SELL, HOLD. -/
theorem chooseDominantAction_spec (w : ℚ × ℚ × ℚ) :
    chooseDominantAction w =
      (if w.2.2 = max w.1 (max w.2.1 w.2.2) then "HOLD"
       else if w.2.1 = max w.1 (max w.2.1 w.2.2) then "SELL" else "BUY") := by
  obtain ⟨wB, wS, wH⟩ := w
  simp only [chooseDominantAction]
  by_cases h1 : wB > wS
  · rw [if_pos h1]
    dsimp only
    by_cases h2 : wB > wH
    · have hmax : max wB (max wS wH) = wB := max_eq_left (max_le h1.le h2.le)
      rw [if_pos h2, hmax,
        if_neg (fun h => by rw [h] at h2; exact lt_irrefl _ h2),
        if_neg (fun h => by rw [h] at h1; exact lt_irrefl _ h1)]
    · have hmax : max wB (max wS wH) = wH := by
        rw [max_eq_right (le_of_lt (lt_of_lt_of_le h1 (not_lt.mp h2)))]
        exact max_eq_right (not_lt.mp h2)
      rw [if_neg h2, hmax, if_pos rfl]
  · rw [if_neg h1]
    dsimp only
    by_cases h2 : wS > wH
    · have hmax : max wB (max wS wH) = wS := by
        rw [max_eq_left h2.le]
        exact max_eq_right (not_lt.mp h1)
      rw [if_pos h2, hmax,
        if_neg (fun h => by rw [h] at h2; exact lt_irrefl _ h2),
        if_pos rfl]
    · have hmax : max wB (max wS wH) = wH := by
        rw [max_eq_right (not_lt.mp h2)]
        exact max_eq_right (le_trans (not_lt.mp h1) (not_lt.mp h2))
      rw [if_neg h2, hmax, if_pos rfl]

/-- C5 counterexample: on `exTiedRecs`, BUY and HOLD tie at the greatest
weight 1/2 and BUY is the first-encountered tied action, yet the dominant
action computed by `getRecommendation` is HOLD: the tie-break picks the
last, not the first, of the tied actions. -/
theorem claim_C5_counterexample :
    voteWeights exTiedRecs = (1 / 2, 0, 1 / 2) ∧
      (exTiedRecs.map (fun r => r.action)).head? = some "BUY" ∧
      chooseDominantAction (voteWeights exTiedRecs) = "HOLD" := by
  have hw : voteWeights exTiedRecs = (1 / 2, 0, 1 / 2) := by
    simp [voteWeights, exTiedRecs]
    norm_num
  refine ⟨hw, rfl, ?_⟩
  rw [hw]
  norm_num [chooseDominantAction]

/-- C5 (amended): the dominant action selected by the `getRecommendation`
closure of `generateReport` always attains the greatest conviction-weighted
vote share, but when two or more actions tie for the greatest weight it
returns the last — not the first — of the tied actions in the fixed
iteration order BUY, SELL, HOLD. -/
theorem claim_C5_dominant_action_selection (recs : List Recommendation) :
    chooseDominantAction (voteWeights recs) =
      (if (voteWeights recs).2.2 =
          max (voteWeights recs).1 (max (voteWeights recs).2.1 (voteWeights recs).2.2) then
        "HOLD"
      else if (voteWeights recs).2.1 =
          max (voteWeights recs).1 (max (voteWeights recs).2.1 (voteWeights recs).2.2) then
        "SELL"
      else "BUY") :=
  chooseDominantAction_spec (voteWeights recs)

/-! ### Claim C1 -/

/-- C1: whenever the plan produced by `calculateAllocations` followed by
`generateAdjustedAllocations` has three positive bucket totals, those totals
sum to within 0.001 of 1. -/
theorem claim_C1_totals_within_tolerance (vixLevel : ℚ) (aa : Option ActualAllocations)
    (pl : Option PositionLimits)
    (h1 : 0 < (generateAdjustedAllocations (calculateAllocations vixLevel aa pl) pl).incomePie.total)
    (h2 : 0 <
      (generateAdjustedAllocations (calculateAllocations vixLevel aa pl) pl).shortTermTreasury.total)
    (h3 : 0 <
      (generateAdjustedAllocations (calculateAllocations vixLevel aa pl) pl).treasuryETF.total) :
    |sumTotals (generateAdjustedAllocations (calculateAllocations vixLevel aa pl) pl) - 1|
      ≤ 0.001 := by
  obtain ⟨q, hq⟩ : ∃ q,
      generateAdjustedAllocations (calculateAllocations vixLevel aa pl) pl =
        normalizeAllocations q := by
    rcases generateAdjustedAllocations_normalized (calculateAllocations vixLevel aa pl) pl with
      h | h
    · rw [h]
      exact calculateAllocations_normalized vixLevel aa pl
    · exact h
  rw [hq] at h1 h2 h3 ⊢
  have hpos : 0 < sumTotals (normalizeAllocations q) := by
    have hdef : sumTotals (normalizeAllocations q) =
        (normalizeAllocations q).incomePie.total +
          (normalizeAllocations q).shortTermTreasury.total +
          (normalizeAllocations q).treasuryETF.total := rfl
    rw [hdef]
    linarith
  have hsum := sumTotals_normalizeAllocations q
  split_ifs at hsum with ha hb
  · rw [hsum]
    exact ha
  · rw [hsum] at hpos
    exact absurd hpos (lt_irrefl 0)
  · rw [hsum]
    norm_num

/-- Witness for C1 at VIX 10 with absent limits and holdings. -/
theorem claim_C1_witness :
    (0 < (generateAdjustedAllocations (calculateAllocations 10 none none) none).incomePie.total ∧
      0 <
        (generateAdjustedAllocations (calculateAllocations 10 none none) none).shortTermTreasury.total ∧
      0 < (generateAdjustedAllocations (calculateAllocations 10 none none) none).treasuryETF.total) ∧
    |sumTotals (generateAdjustedAllocations (calculateAllocations 10 none none) none) - 1|
      ≤ 0.001 := by
  have h1 : 0 <
      (generateAdjustedAllocations (calculateAllocations 10 none none) none).incomePie.total := by
    norm_num [generateAdjustedAllocations, calculateAllocations, baseAllocations,
      currentAllocations, normalizeAllocations, maxSingleOptionETF, maxCombinedOptionETFs,
      idealIncomePieAllocation, jsOrNum, combinedLimitFlag, jsTruthy, sumTotals, min_def,
      lt_abs, abs_le]
  have h2 : 0 <
      (generateAdjustedAllocations (calculateAllocations 10 none none) none).shortTermTreasury.total := by
    norm_num [generateAdjustedAllocations, calculateAllocations, baseAllocations,
      currentAllocations, normalizeAllocations, maxSingleOptionETF, maxCombinedOptionETFs,
      idealIncomePieAllocation, jsOrNum, combinedLimitFlag, jsTruthy, sumTotals, min_def,
      lt_abs, abs_le]
  have h3 : 0 <
      (generateAdjustedAllocations (calculateAllocations 10 none none) none).treasuryETF.total := by
    norm_num [generateAdjustedAllocations, calculateAllocations, baseAllocations,
      currentAllocations, normalizeAllocations, maxSingleOptionETF, maxCombinedOptionETFs,
      idealIncomePieAllocation, jsOrNum, combinedLimitFlag, jsTruthy, sumTotals, min_def,
      lt_abs, abs_le]
  exact ⟨⟨h1, h2, h3⟩, claim_C1_totals_within_tolerance 10 none none h1 h2 h3⟩

/-! ### Claim C3 -/

/-- A plan whose totals sum to exactly 1 is unchanged by normalization. -/
theorem normalizeAllocations_of_sum_eq_one (a : Allocations) (h : sumTotals a = 1) :
    normalizeAllocations a = a :=
  normalizeAllocations_eq_self a (by rw [h]; norm_num)

/-- C3: for VIX strictly above 30, the income-pie bucket total of the
calculator output is at most `maxCombinedOptionETFs`, both directly after
`calculateAllocations` and after the `generateAdjustedAllocations` pass. -/
theorem claim_C3_high_vix_caps_income_pie (vixLevel : ℚ) (aa : Option ActualAllocations)
    (pl : Option PositionLimits) (h : vixLevel > 30) :
    (calculateAllocations vixLevel aa pl).incomePie.total ≤ maxCombinedOptionETFs pl ∧
    (generateAdjustedAllocations (calculateAllocations vixLevel aa pl) pl).incomePie.total ≤
      maxCombinedOptionETFs pl := by
  have hsum1 : sumTotals (highVixAllocations pl) = 1 := by
    simp only [sumTotals, highVixAllocations]
    ring
  have hcalc : calculateAllocations vixLevel aa pl = highVixAllocations pl := by
    simp only [calculateAllocations]
    rw [if_pos h, normalizeAllocations_of_sum_eq_one _ hsum1]
  rw [hcalc]
  refine ⟨le_of_eq rfl, ?_⟩
  simp only [generateAdjustedAllocations]
  split_ifs with hc
  · exact hc.2
  · rw [normalizeAllocations_of_sum_eq_one]
    · exact min_le_right _ _
    · simp only [sumTotals, highVixAllocations]
      rw [min_self]
      ring

/-- Witness for C3 at VIX 31 with absent limits and holdings. -/
theorem claim_C3_witness :
    (31 : ℚ) > 30 ∧
      ((calculateAllocations 31 none none).incomePie.total ≤ maxCombinedOptionETFs none ∧
        (generateAdjustedAllocations (calculateAllocations 31 none none) none).incomePie.total ≤
          maxCombinedOptionETFs none) :=
  ⟨by norm_num, claim_C3_high_vix_caps_income_pie 31 none none (by norm_num)⟩

/-! ### Claim C8 -/

/-- The confidence field of a successful `analyze` run is exactly
`calculateStrategyConfidence` applied to the VIX level, the Sharpe ratio
and the derived market metrics. -/
theorem analyze_confidence (input : AgentInput) (out : AgentOutput)
    (h : analyze input = Except.ok out) :
    out.confidence = calculateStrategyConfidence input.portfolioState.marketCondition.vix
      input.portfolioState.metrics.sharpeRatio (calculateMarketMetrics input) := by
  simp only [analyze, bind, Except.bind] at h
  split at h
  · simp at h
  · split at h
    · simp at h
    · injection h with h'
      rw [← h']

/-- C8: the confidence score returned by `calculateStrategyConfidence` lies
in [0, 1] for every VIX level, Sharpe ratio and market metrics, and hence so
does the confidence of every successful `analyze` output. -/
theorem claim_C8_confidence_in_unit_interval :
    (∀ (vixLevel sharpeRatio : ℚ) (marketMetrics : MarketMetrics),
        0 ≤ calculateStrategyConfidence vixLevel sharpeRatio marketMetrics ∧
          calculateStrategyConfidence vixLevel sharpeRatio marketMetrics ≤ 1) ∧
    (∀ (input : AgentInput) (out : AgentOutput), analyze input = Except.ok out →
        0 ≤ out.confidence ∧ out.confidence ≤ 1) := by
  have hbounds : ∀ (vixLevel sharpeRatio : ℚ) (marketMetrics : MarketMetrics),
      0 ≤ calculateStrategyConfidence vixLevel sharpeRatio marketMetrics ∧
        calculateStrategyConfidence vixLevel sharpeRatio marketMetrics ≤ 1 := by
    intro vixLevel sharpeRatio marketMetrics
    simp only [calculateStrategyConfidence]
    constructor
    · exact le_max_left 0 _
    · exact max_le (by norm_num) (min_le_left 1 _)
  refine ⟨hbounds, fun input out h => ?_⟩
  rw [analyze_confidence input out h]
  exact hbounds _ _ _

/-- Witness for C8 at the sample input. -/
theorem claim_C8_witness :
    (0 ≤ calculateStrategyConfidence 18 1.2 (calculateMarketMetrics exInput) ∧
      calculateStrategyConfidence 18 1.2 (calculateMarketMetrics exInput) ≤ 1) ∧
    (0 ≤ exAnalyzeOutput.confidence ∧ exAnalyzeOutput.confidence ≤ 1) :=
  ⟨claim_C8_confidence_in_unit_interval.1 18 1.2 (calculateMarketMetrics exInput),
   claim_C8_confidence_in_unit_interval.2 exInput exAnalyzeOutput rfl⟩

/-! ### Claim C6 -/

/-- C6 counterexample: `analyze` raises a `TypeError` when
`portfolioState.rotationSignals` is absent (despite the `|| []` defaulting at
the top of `analyze`, `getImplementationStrategy` reads `.length` on the raw
field), and `generateReport` raises a `TypeError` on an empty `stockData`
list; so the core logic does not complete on every input. -/
theorem claim_C6_counterexample :
    (analyze exMissingSignalsInput).isOk = false ∧
      (generateReport 0 exEmptyStockInput exAgentOutput exAgentOutput exAgentOutput
          exAgentOutput exAgentOutput).isOk = false := by
  constructor <;> rfl

/-- C6 (amended): `analyze` completes without an exception for every input
whose portfolio state carries rotation signals and holdings — missing
position limits and actual allocations are replaced by hardcoded fallback
values — and `generateReport` completes for every input with nonempty stock
data and nonempty recommendation lists on the four upstream analyses; inputs
missing those raise `TypeError`s. -/
theorem claim_C6_no_exception_under_presence :
    (∀ (input : AgentInput) (rs : List RotationSignal) (hs : List Holding),
      input.portfolioState.rotationSignals = some rs →
      input.portfolioState.holdings = some hs →
      (analyze input).isOk = true) ∧
    (∀ (now : ℕ) (input : AgentInput) (f t s m n : AgentOutput)
        (bar : StockData) (f0 t0 s0 m0 : Recommendation),
      input.stockData.getLast? = some bar →
      f.recommendations.head? = some f0 →
      t.recommendations.head? = some t0 →
      s.recommendations.head? = some s0 →
      m.recommendations.head? = some m0 →
      (generateReport now input f t s m n).isOk = true) := by
  constructor
  · intro input rs hs hrs hhs
    simp only [analyze, generateDetailedAnalysis, getImplementationStrategy,
      identifyStrategyRisks, bind, Except.bind, hrs, hhs, Except.isOk, Except.toBool]
  · intro now input f t s m n bar f0 t0 s0 m0 hbar hf ht hs0 hm0
    simp only [generateReport, hbar, ht, hs0, hm0, hf, Except.isOk, Except.toBool]

/-- Witness for C6 at the sample inputs. -/
theorem claim_C6_witness :
    (analyze exInput).isOk = true ∧
      (generateReport 0 exInput exAgentOutput exAgentOutput exAgentOutput exAgentOutput
          exAgentOutput).isOk = true :=
  ⟨claim_C6_no_exception_under_presence.1 exInput [] [] rfl rfl,
   claim_C6_no_exception_under_presence.2 0 exInput exAgentOutput exAgentOutput exAgentOutput
     exAgentOutput exAgentOutput { close := 50 } exRecommendation exRecommendation
     exRecommendation exRecommendation rfl rfl rfl rfl rfl⟩

/-! ### Claim C7 -/

/-- Closed form of `normalizeAllocations` with `sumTotals` named. -/
theorem normalizeAllocations_def2 (a : Allocations) :
    normalizeAllocations a =
      if |sumTotals a - 1| > 0.001 then
        { a with
          incomePie := { a.incomePie with total := a.incomePie.total * (1 / sumTotals a) }
          shortTermTreasury :=
            { a.shortTermTreasury with total := a.shortTermTreasury.total * (1 / sumTotals a) }
          treasuryETF := { a.treasuryETF with total := a.treasuryETF.total * (1 / sumTotals a) } }
      else a := rfl

/-- Normalization is idempotent. -/
theorem normalizeAllocations_idem (a : Allocations) :
    normalizeAllocations (normalizeAllocations a) = normalizeAllocations a := by
  by_cases hA : |sumTotals a - 1| ≤ 0.001
  · rw [normalizeAllocations_eq_self a hA]
    exact normalizeAllocations_eq_self a hA
  · have hgt : |sumTotals a - 1| > 0.001 := not_le.mp hA
    by_cases hC : sumTotals a = 0
    · have hb : normalizeAllocations a =
          { a with
            incomePie := { a.incomePie with total := 0 }
            shortTermTreasury := { a.shortTermTreasury with total := 0 }
            treasuryETF := { a.treasuryETF with total := 0 } } := by
        rw [normalizeAllocations_def2, if_pos hgt, hC]
        simp
      rw [hb, normalizeAllocations_def2, if_pos]
      · simp
      · simp [sumTotals]
        norm_num
    · have hsum := sumTotals_normalizeAllocations a
      rw [if_neg hA, if_neg hC] at hsum
      exact normalizeAllocations_eq_self _ (by rw [hsum]; norm_num)

/-- Frame fact: the in-place update touches only `recommendedAllocations`. -/
theorem setRecommendedAllocations_recAlloc (m : AgentOutput) (b : Allocations) :
    (setRecommendedAllocations m b).metrics.recommendedAllocations = some b := rfl

/-- Updating twice keeps only the second update. -/
theorem setRecommendedAllocations_twice (m : AgentOutput) (b c : Allocations) :
    setRecommendedAllocations (setRecommendedAllocations m b) c =
      setRecommendedAllocations m c := rfl

/-- The action-plan text ignores `recommendedAllocations` updates. -/
theorem actionPlanText_setRecommendedAllocations (m : AgentOutput) (b : Allocations)
    (x : Allocations) :
    actionPlanText (setRecommendedAllocations m b) x = actionPlanText m x := rfl

/-- The strategic assessment ignores `recommendedAllocations` updates. -/
theorem generateStrategicAssessment_setRecommendedAllocations (m : AgentOutput)
    (b : Allocations) :
    generateStrategicAssessment (setRecommendedAllocations m b) =
      generateStrategicAssessment m := rfl

/-- The risk snapshot ignores `recommendedAllocations` updates. -/
theorem generateRiskSnapshot_setRecommendedAllocations
    (f t s m : AgentOutput) (b : Allocations) :
    generateRiskSnapshot f t s (setRecommendedAllocations m b) =
      generateRiskSnapshot f t s m := rfl

/-- Running `generateActionPlan` on the already-mutated macro output yields
the same text and the same state: the in-place normalization is stable. -/
theorem generateActionPlan_stable (m : AgentOutput) :
    generateActionPlan ((generateActionPlan m).2) = generateActionPlan m := by
  cases hra : m.metrics.recommendedAllocations with
  | none => simp only [generateActionPlan, hra]
  | some a =>
      simp only [generateActionPlan, hra, setRecommendedAllocations_recAlloc,
        normalizeAllocations_idem, actionPlanText_setRecommendedAllocations,
        setRecommendedAllocations_twice]

/-- The mutated macro output keeps its strategic assessment. -/
theorem generateStrategicAssessment_actionPlan (m : AgentOutput) :
    generateStrategicAssessment ((generateActionPlan m).2) =
      generateStrategicAssessment m := by
  cases hra : m.metrics.recommendedAllocations with
  | none => simp only [generateActionPlan, hra]
  | some a =>
      simp only [generateActionPlan, hra,
        generateStrategicAssessment_setRecommendedAllocations]

/-- The mutated macro output keeps its risk snapshot. -/
theorem generateRiskSnapshot_actionPlan (f t s m : AgentOutput) :
    generateRiskSnapshot f t s ((generateActionPlan m).2) =
      generateRiskSnapshot f t s m := by
  cases hra : m.metrics.recommendedAllocations with
  | none => simp only [generateActionPlan, hra]
  | some a =>
      simp only [generateActionPlan, hra,
        generateRiskSnapshot_setRecommendedAllocations]

/-- The mutated macro output keeps its confidence. -/
theorem generateActionPlan_confidence (m : AgentOutput) :
    ((generateActionPlan m).2).confidence = m.confidence := by
  cases hra : m.metrics.recommendedAllocations with
  | none => simp only [generateActionPlan, hra]
  | some a => simp only [generateActionPlan, hra]; rfl

/-- The mutated macro output keeps its recommendations. -/
theorem generateActionPlan_recommendations (m : AgentOutput) :
    ((generateActionPlan m).2).recommendations = m.recommendations := by
  cases hra : m.metrics.recommendedAllocations with
  | none => simp only [generateActionPlan, hra]
  | some a => simp only [generateActionPlan, hra]; rfl

/-- The mutated macro output keeps its risks. -/
theorem generateActionPlan_risks (m : AgentOutput) :
    ((generateActionPlan m).2).risks = m.risks := by
  cases hra : m.metrics.recommendedAllocations with
  | none => simp only [generateActionPlan, hra]
  | some a => simp only [generateActionPlan, hra]; rfl

/-- C7: `analyze` is pure — two runs on the same input agree — and
`generateReport` is pure up to the `Date.now()` timestamp: a second run with
a different clock value, applied to the macro output as mutated by the first
run, produces a report identical to the first except for the timestamp. -/
theorem claim_C7_purity (now₁ now₂ : ℕ) (input : AgentInput)
    (f t s m n : AgentOutput) :
    Except.map reportView
        (generateReport now₂ input f t s
          (match generateReport now₁ input f t s m n with
            | Except.ok r => r.macroAnalysis
            | Except.error _ => m) n)
      = Except.map reportView (generateReport now₁ input f t s m n)
    ∧ analyze input = analyze input := by
  refine ⟨?_, rfl⟩
  cases hbar : input.stockData.getLast? with
  | none => simp [generateReport, hbar]
  | some bar =>
    cases ht : t.recommendations.head? with
    | none => simp [generateReport, hbar, ht]
    | some t0 =>
      cases hsent : s.recommendations.head? with
      | none => simp [generateReport, hbar, ht, hsent]
      | some s0 =>
        cases hmac : m.recommendations.head? with
        | none => simp [generateReport, hbar, ht, hsent, hmac,
            generateActionPlan_recommendations]
        | some m0 =>
          cases hf : f.recommendations.head? with
          | none => simp [generateReport, hbar, ht, hsent, hmac, hf,
              generateActionPlan_recommendations]
          | some f0 =>
            simp only [generateReport, hbar, ht, hsent, hmac, hf,
              generateActionPlan_recommendations, Except.map, reportView,
              generateActionPlan_stable, generateStrategicAssessment_actionPlan,
              generateRiskSnapshot_actionPlan, generateActionPlan_confidence,
              generateActionPlan_risks]
